import Mathlib

/-!
Verification of the Metadata Analysis and Sync Engine of MetadataSyncer.

The embedding translates the engine functions of the source file
(analyze_file_metadata, perform_sync_operation, get_effective_timezone)
into Lean.  External collaborators are passed in as explicit inputs:

* the standard output text of the external metadata tool and the reading
  json.loads gives of it (a decode failure carries the exception text);
* the TimezoneFinder lookup, an oracle from longitude and latitude to an
  optional zone name (absent also covers the library being unavailable or
  failing);
* the zoneinfo database, an oracle from zone names to zone records; a zone
  record models an IANA zone as an initial UTC offset followed by a finite
  list of offset transitions, and attaching a zone to a naive wall clock
  time follows the PEP 495 rule with the default fold of zero, as the
  datetime replace call in the source does;
* the subprocess layer, an oracle from the assembled argument list to the
  exit status; the trace of the operation records which command, if any,
  was actually launched.

Naive timestamps are carried both as strings (as the source does) and,
once parsed, as wall clock seconds obtained by the proleptic Gregorian
day numbering; the date arithmetic of the datetime library is embedded by
the standard civil from days and days from civil computations.
-/

/-- Scalar value as decoded by json.loads from the external tool output.
The tool omits tags it cannot read, so a present key is a string or a
number; a floating point number is modelled by its exact decimal reading,
a mantissa together with the count of fraction digits. -/
inductive JVal where
  | jstr (s : String)
  | jint (n : Int)
  | jfloat (m : Int) (e : Nat)
  deriving DecidableEq

/-- Python truthiness of a decoded scalar: empty strings and zero numbers
are falsy. -/
def JVal.truthy : JVal → Bool
  | .jstr s => !s.isEmpty
  | .jint n => n != 0
  | .jfloat m _ => m != 0

/-- Leading zero padding used when rendering fixed width numeric fields. -/
def padZeros (w : Nat) (s : String) : String :=
  if s.length < w then (List.replicate (w - s.length) '0').asString ++ s else s

/-- Rendering of a decoded scalar by the Python str conversion, as used in
the formatted string literals of the source. -/
def JVal.pystr : JVal → String
  | .jstr s => s
  | .jint n => toString n
  | .jfloat m e =>
    let sign := if m < 0 then "-" else ""
    let a := m.natAbs
    if e = 0 then sign ++ toString a ++ ".0"
    else
      let p := 10 ^ e
      sign ++ toString (a / p) ++ "." ++ padZeros e (toString (a % p))

/-- Value of a digit character. -/
def digitVal? (c : Char) : Option Nat :=
  if c.isDigit then some (c.toNat - 48) else none

/-- Reads a nonempty run of digit characters as a number. -/
def digitsVal? (cs : List Char) : Option Nat :=
  if cs.isEmpty then none
  else cs.foldl (fun acc c => do
    let a ← acc
    let d ← digitVal? c
    pure (a * 10 + d)) (some 0)

/-- Python str.strip with no argument: drop leading and trailing
whitespace. -/
def pyStrip (s : String) : String :=
  ((s.toList.dropWhile Char.isWhitespace).reverse.dropWhile
    Char.isWhitespace).reverse.asString

/-- Plain decimal parser modelling the Python float conversion on the
strings that GPS tags carry: optional sign, digits, optional fraction.
Returns the exact decimal as mantissa and fraction digit count; none
models the ValueError raised on an unparsable string. -/
def parseDecimal (s : String) : Option (Int × Nat) :=
  let cs := s.toList
  let (sg, cs2) : Int × List Char :=
    match cs with
    | c :: r => if c = '-' then (-1, r) else if c = '+' then (1, r) else (1, cs)
    | [] => (1, [])
  match cs2.span (fun c => c != '.') with
  | (ip, []) => (digitsVal? ip).map (fun n => (sg * n, 0))
  | (ip, _ :: fp) =>
    if fp.any (fun c => c = '.') then none
    else if ip.isEmpty && fp.isEmpty then none
    else do
      let i ← if ip.isEmpty then pure 0 else digitsVal? ip
      let f ← if fp.isEmpty then pure 0 else digitsVal? fp
      pure (sg * (i * 10 ^ fp.length + f), fp.length)

/-- Python float conversion of a decoded scalar; none models ValueError. -/
def JVal.pyFloat : JVal → Option (Int × Nat)
  | .jint n => some (n, 0)
  | .jfloat m e => some (m, e)
  | .jstr s => parseDecimal (pyStrip s)

/-- Truthiness of an optional scalar, matching a Python value that is
either absent or a decoded scalar. -/
def optTruthy : Option JVal → Bool
  | some v => v.truthy
  | none => false

/-- Truthiness of an optional string, matching a Python value that is
either None or a string. -/
def optStrTruthy : Option String → Bool
  | some s => !s.isEmpty
  | none => false

/-- One decoded object of the tool output, holding the fixed tag set the
extraction requests; a missing field is a tag the tool did not emit. -/
structure ExifTags where
  CreationDate : Option JVal := none
  CreateDate : Option JVal := none
  GPSLatitude : Option JVal := none
  GPSLongitude : Option JVal := none
  Make : Option JVal := none
  Model : Option JVal := none
  FNumber : Option JVal := none
  ISO : Option JVal := none
  ExposureTime : Option JVal := none
  deriving DecidableEq

/-- Normalized extraction record returned by analyze_file_metadata. -/
structure AnalysisResult where
  date : Option String := none
  gps : Option ((Int × Nat) × (Int × Nat)) := none
  camera : Option String := none
  tz_suggested : Option String := none
  error : Option String := none
  deriving DecidableEq

/-- Python str.split with no separator: split on whitespace runs and drop
empty pieces. -/
def splitWsAux : List Char → List Char → List String
  | [], acc => if acc.isEmpty then [] else [acc.reverse.asString]
  | c :: r, acc =>
    if c.isWhitespace then
      if acc.isEmpty then splitWsAux r [] else acc.reverse.asString :: splitWsAux r []
    else splitWsAux r (c :: acc)

def pyWords (s : String) : List String := splitWsAux s.toList []

/-- Token deduplication keeping the first occurrence of each token, the
reading of dict.fromkeys over the split tokens in the source. -/
def dedupFirstAux (seen : List String) : List String → List String
  | [] => []
  | t :: r => if t ∈ seen then dedupFirstAux seen r else t :: dedupFirstAux (t :: seen) r

def dedupFirst (l : List String) : List String := dedupFirstAux [] l

/-- Parts of the camera summary, translated from lines 180 to 191 of the
source: make and model default to the empty string, their rendered
concatenation is stripped, split on whitespace, deduplicated keeping first
occurrences and joined with single spaces; the f-number and ISO parts are
appended when their raw values are truthy. -/
def cameraParts (make mdl fnum iso : Option JVal) : List String :=
  let makeS := (make.map JVal.pystr).getD ""
  let modelS := (mdl.map JVal.pystr).getD ""
  let name := pyStrip (makeS ++ " " ++ modelS)
  (if optTruthy make || optTruthy mdl then
      [String.intercalate " " (dedupFirst (pyWords name))]
    else [])
  ++ (if optTruthy fnum then ["f/" ++ ((fnum.map JVal.pystr).getD "")] else [])
  ++ (if optTruthy iso then ["ISO " ++ ((iso.map JVal.pystr).getD "")] else [])

/-- Camera summary: populated parts joined with a bar separator, absent
when no part exists. -/
def cameraSummary (make mdl fnum iso : Option JVal) : Option String :=
  let parts := cameraParts make mdl fnum iso
  if parts.isEmpty then none else some (String.intercalate " | " parts)

/-- Translation of analyze_file_metadata.  The inputs stand for the
external pieces: the tool handle (None when the tool was not found), the
standard output text of the tool run, the json.loads reading of that text,
and the TimezoneFinder lookup keyed by longitude then latitude. -/
def analyze_file_metadata (exif_cmd : Option String) (stdout : String)
    (decoded : Except String (List ExifTags))
    (tzAt : (Int × Nat) → (Int × Nat) → Option String) : AnalysisResult :=
  if !optStrTruthy exif_cmd then { error := some "ExifTool not found" }
  else if (pyStrip stdout).isEmpty then {}
  else
    match decoded with
    | .error e => { error := some ("JSON decoding error: " ++ e) }
    | .ok [] => {}
    | .ok (metadata :: _) =>
      let d : Option JVal :=
        match metadata.CreationDate with
        | some v => some v
        | none => metadata.CreateDate
      let dateF : Option String :=
        if optTruthy d then some ((d.map JVal.pystr).getD "") else none
      let gpsF : Option ((Int × Nat) × (Int × Nat)) :=
        match metadata.GPSLatitude, metadata.GPSLongitude with
        | some lat, some lon =>
          match lat.pyFloat, lon.pyFloat with
          | some la, some lo => some (la, lo)
          | _, _ => none
        | _, _ => none
      let tzF : Option String :=
        match gpsF with
        | some (la, lo) => tzAt lo la
        | none => none
      { date := dateF, gps := gpsF,
        camera := cameraSummary metadata.Make metadata.Model metadata.FNumber metadata.ISO,
        tz_suggested := tzF, error := none }

/-- Sentinel default of the timezone option. -/
def DEFAULT_TIMEZONE : String := "UTC"

/-- Translation of get_effective_timezone. -/
def get_effective_timezone (user_specified_tz : String)
    (detected_tz_suggested : Option String) : String :=
  if user_specified_tz = DEFAULT_TIMEZONE ∧ optStrTruthy detected_tz_suggested then
    detected_tz_suggested.getD ""
  else user_specified_tz

/-- Model of an IANA zone as read through the zoneinfo library: a fixed
UTC offset in force before the first transition, then a finite list of
transitions, each given by the UTC instant at which it takes effect and
the offset in seconds that holds from that instant on. -/
structure Zone where
  initOff : Int
  trans : List (Int × Int)
  deriving DecidableEq

/-- Offset of the zone at a UTC instant: the offset of the last transition
at or before the instant. -/
def offAtAux (prev : Int) : List (Int × Int) → Int → Int
  | [], _ => prev
  | (t0, o) :: rest, t => if t < t0 then prev else offAtAux o rest t

def Zone.offsetAt (z : Zone) (t : Int) : Int := offAtAux z.initOff z.trans t

/-- Offset attached to a naive wall clock time by the datetime replace
call with the default fold of zero, following PEP 495: on a wall time hit
by a transition (skipped by a gap or repeated by a fold) the offset in
force before the transition applies, so on the wall clock the boundary of
a transition sits at its instant plus the larger of the two offsets. -/
def foldOffAux (prev : Int) : List (Int × Int) → Int → Int
  | [], _ => prev
  | (t0, o) :: rest, w => if w < t0 + max prev o then prev else foldOffAux o rest w

def Zone.foldOffset (z : Zone) (w : Int) : Int := foldOffAux z.initOff z.trans w

/-- True when the wall clock time is affected by a transition of the zone:
it is either skipped by a gap or repeated by a fold. -/
def windowAux (prev : Int) : List (Int × Int) → Int → Bool
  | [], _ => false
  | (t0, o) :: rest, w =>
    (decide (t0 + min prev o ≤ w) && decide (w < t0 + max prev o)) || windowAux o rest w

def Zone.onTransition (z : Zone) (w : Int) : Bool := windowAux z.initOff z.trans w

/-- Well formed zone: transition instants strictly increase. -/
def Zone.WF (z : Zone) : Prop := z.trans.Pairwise (fun a b => a.1 < b.1)

/-- Conversion of a naive wall clock time of the zone to the UTC instant,
as the source does by attaching the zone and converting to UTC. -/
def Zone.localToUtc (z : Zone) (w : Int) : Int := w - z.foldOffset w

/-- Conversion of a UTC instant to the wall clock time of the zone, the
reading back direction of the round trip law. -/
def Zone.utcToLocal (z : Zone) (u : Int) : Int := u + z.offsetAt u

/-- Length of a month, with the Gregorian leap rule for February. -/
def daysInMonth (y m : Nat) : Nat :=
  if m = 2 then (if y % 4 = 0 && (y % 100 != 0 || y % 400 = 0) then 29 else 28)
  else if m = 4 || m = 6 || m = 9 || m = 11 then 30 else 31

/-- Calendar timestamp as held by a naive datetime value. -/
structure Civil where
  year : Nat
  month : Nat
  day : Nat
  hour : Nat
  minute : Nat
  second : Nat
  deriving DecidableEq

/-- Takes up to k leading digit characters. -/
def takeDigits (k : Nat) (cs : List Char) : List Char × List Char :=
  match k, cs with
  | 0, _ => ([], cs)
  | _, [] => ([], [])
  | Nat.succ k2, c :: r =>
    if c.isDigit then
      let (d, r2) := takeDigits k2 r
      (c :: d, r2)
    else ([], cs)

def expectChar (c : Char) : List Char → Option (List Char)
  | x :: r => if x = c then some r else none
  | [] => none

/-- Reads one numeric field of at most maxW digits. -/
def parseField (maxW : Nat) (cs : List Char) : Option (Nat × List Char) :=
  let (ds, r) := takeDigits maxW cs
  if ds.isEmpty then none else (digitsVal? ds).map (fun n => (n, r))

/-- strptime with the fixed format of the source, year colon month colon
day space hour colon minute colon second; fails exactly where the Python
call raises ValueError: wrong shape, trailing text, or a field outside the
range a datetime accepts. -/
def strptime19 (s : String) : Option Civil := do
  let cs := s.toList
  let (y, cs) ← parseField 4 cs
  let cs ← expectChar ':' cs
  let (mo, cs) ← parseField 2 cs
  let cs ← expectChar ':' cs
  let (d, cs) ← parseField 2 cs
  let cs ← expectChar ' ' cs
  let (h, cs) ← parseField 2 cs
  let cs ← expectChar ':' cs
  let (mi, cs) ← parseField 2 cs
  let cs ← expectChar ':' cs
  let (sec, cs) ← parseField 2 cs
  if !cs.isEmpty then none
  else if 1 ≤ y ∧ y ≤ 9999 ∧ 1 ≤ mo ∧ mo ≤ 12 ∧ 1 ≤ d ∧ d ≤ daysInMonth y mo
      ∧ h ≤ 23 ∧ mi ≤ 59 ∧ sec ≤ 59 then
    some ⟨y, mo, d, h, mi, sec⟩
  else none

/-- Proleptic Gregorian day number of a civil date, days since the epoch. -/
def daysFromCivil (y m d : Int) : Int :=
  let y2 := if m ≤ 2 then y - 1 else y
  let era := Int.fdiv y2 400
  let yoe := y2 - era * 400
  let mp := Int.fmod (m + 9) 12
  let doy := Int.fdiv (153 * mp + 2) 5 + d - 1
  let doe := yoe * 365 + Int.fdiv yoe 4 - Int.fdiv yoe 100 + doy
  era * 146097 + doe - 719468

/-- Wall clock seconds of a civil timestamp. -/
def civilToSecs (c : Civil) : Int :=
  daysFromCivil c.year c.month c.day * 86400
    + c.hour * 3600 + c.minute * 60 + c.second

/-- Civil date of a proleptic Gregorian day number. -/
def civilFromDays (z : Int) : Int × Int × Int :=
  let z2 := z + 719468
  let era := Int.fdiv z2 146097
  let doe := z2 - era * 146097
  let yoe := Int.fdiv (doe - Int.fdiv doe 1460 + Int.fdiv doe 36524 - Int.fdiv doe 146096) 365
  let y := yoe + era * 400
  let doy := doe - (365 * yoe + Int.fdiv yoe 4 - Int.fdiv yoe 100)
  let mp := Int.fdiv (5 * doy + 2) 153
  let d := doy - Int.fdiv (153 * mp + 2) 5 + 1
  let m := mp + (if mp < 10 then 3 else -9)
  (y + (if m ≤ 2 then 1 else 0), m, d)

/-- strftime rendering of an instant with the fixed format of the source. -/
def formatCivilSecs (u : Int) : String :=
  let days := Int.fdiv u 86400
  let rem := (Int.fmod u 86400).toNat
  let ymd := civilFromDays days
  padZeros 4 (toString ymd.1) ++ ":" ++ padZeros 2 (toString ymd.2.1) ++ ":"
    ++ padZeros 2 (toString ymd.2.2) ++ " " ++ padZeros 2 (toString (rem / 3600)) ++ ":"
    ++ padZeros 2 (toString (rem % 3600 / 60)) ++ ":" ++ padZeros 2 (toString (rem % 60))

/-- strftime rendering of a UTC offset, sign then hours and minutes, with
a seconds part only when the offset is not a whole number of minutes. -/
def formatPercentZ (off : Int) : String :=
  let sign := if off < 0 then "-" else "+"
  let a := off.natAbs
  sign ++ padZeros 2 (toString (a / 3600)) ++ padZeros 2 (toString (a % 3600 / 60))
    ++ (if a % 60 = 0 then "" else padZeros 2 (toString (a % 60)))

/-- Date branch of perform_sync_operation, lines 230 to 239 of the source:
the first 19 characters of the stored date string are parsed, the zone is
attached with the default fold, and the local with offset and the UTC
write values are produced; none models the caught exception (bad naive
format or unknown zone name) that makes the branch skip. -/
def transformTimestamp (zones : String → Option Zone) (tz : String)
    (dateStr : String) : Option (String × String) := do
  let raw := (dateStr.toList.take 19).asString
  let c ← strptime19 raw
  let z ← zones tz
  let w := civilToSecs c
  let off := z.foldOffset w
  let utc := formatCivilSecs (w - off)
  let zstr := formatPercentZ off
  let localS := raw ++ ((zstr.toList.take 3).asString ++ ":" ++ (zstr.toList.drop 3).asString)
  pure (localS, utc)

/-- Date write arguments of the assembled command. -/
def dateArgs (zones : String → Option Zone) (tz : String) (sync_date : Bool)
    (date : Option String) : List String :=
  if sync_date && optStrTruthy date then
    match transformTimestamp zones tz (date.getD "") with
    | some (localS, utc) =>
      ["-QuickTime:CreationDate=" ++ localS, "-QuickTime:CreateDate=" ++ utc,
       "-QuickTime:ModifyDate=" ++ utc, "-FileCreateDate=" ++ localS,
       "-FileModifyDate=" ++ localS]
    | none => []
  else []

/-- GPS wildcard copy arguments of the assembled command. -/
def gpsArgs (sync_gps : Bool) (source_path : String) : List String :=
  if sync_gps then ["-TagsFromFile", source_path, "-*GPS*"] else []

/-- The seven named camera tags the sync copies. -/
def cameraTagList : List String :=
  ["-Make", "-Model", "-FNumber", "-ISO", "-ExposureTime", "-LensModel", "-LensID"]

/-- Camera tag copy arguments of the assembled command. -/
def cameraArgs (sync_camera : Bool) (source_path : String) : List String :=
  if sync_camera then ["-TagsFromFile", source_path] ++ cameraTagList else []

/-- Full argument list assembled by perform_sync_operation, lines 227 to
254 of the source. -/
def buildSyncCmd (exif source_path target_path : String)
    (sync_date sync_gps sync_camera : Bool) (tz : String)
    (zones : String → Option Zone) (md : AnalysisResult) : List String :=
  [exif] ++ dateArgs zones tz sync_date md.date ++ gpsArgs sync_gps source_path
    ++ cameraArgs sync_camera source_path ++ ["-overwrite_original", target_path]

/-- Observable outcome of one sync call: the returned flag, the argument
list of the external command if one was launched, and whether the source
file was re-analyzed. -/
structure SyncTrace where
  success : Bool
  executed : Option (List String)
  analyzedSource : Bool
  deriving DecidableEq

/-- Translation of perform_sync_operation.  The analysis the source branch
would perform is supplied as the analysisOf input (analyze_file_metadata
applied to the source file); runOk is the subprocess layer, giving the
exit status of the assembled command. -/
def perform_sync_operation (source_path target_path : String)
    (sync_date sync_gps sync_camera : Bool) (timezone_str : String)
    (exiftool_cmd : Option String) (pre : Option AnalysisResult)
    (analysisOf : AnalysisResult) (zones : String → Option Zone)
    (runOk : List String → Bool) : SyncTrace :=
  if !optStrTruthy exiftool_cmd then ⟨false, none, false⟩
  else if source_path.isEmpty || target_path.isEmpty then ⟨false, none, false⟩
  else
    let exif := exiftool_cmd.getD ""
    let run := fun (md : AnalysisResult) (analyzed : Bool) =>
      let cmd := buildSyncCmd exif source_path target_path sync_date sync_gps
        sync_camera timezone_str zones md
      SyncTrace.mk (runOk cmd) (some cmd) analyzed
    match pre with
    | some md => run md false
    | none =>
      if optStrTruthy analysisOf.error then ⟨false, none, true⟩
      else run analysisOf true

/-- The fold zero offset is either the offset before all transitions or
the offset of a transition whose instant plus offset is at most the wall
clock time. -/
lemma foldOffAux_cases (prev : Int) (l : List (Int × Int)) (w : Int) :
    foldOffAux prev l w = prev ∨
      ∃ p ∈ l, foldOffAux prev l w = p.2 ∧ p.1 + p.2 ≤ w := by
  induction l generalizing prev with
  | nil => exact Or.inl rfl
  | cons q rest ih =>
    rcases q with ⟨t0, o⟩
    by_cases h : w < t0 + max prev o
    · left
      simp [foldOffAux, h]
    · right
      have hred : foldOffAux prev ((t0, o) :: rest) w = foldOffAux o rest w := by
        simp [foldOffAux, h]
      rcases ih o with h2 | ⟨p, hp, h3, h4⟩
      · refine ⟨(t0, o), List.mem_cons_self _ _, by rw [hred, h2], ?_⟩
        have := le_max_right prev o
        omega
      · exact ⟨p, List.mem_cons_of_mem _ hp, hred ▸ h3, h4⟩

/-- Key step of the round trip law: off a transition window on the wall
clock, the offset of the zone at the converted instant agrees with the
fold zero offset attached at localization time. -/
lemma offAtAux_roundtrip (l : List (Int × Int)) (prev : Int) (w : Int)
    (hwf : l.Pairwise (fun a b => a.1 < b.1))
    (hwin : windowAux prev l w = false) :
    offAtAux prev l (w - foldOffAux prev l w) = foldOffAux prev l w := by
  induction l generalizing prev with
  | nil => rfl
  | cons q rest ih =>
    rcases q with ⟨t0, o⟩
    rw [List.pairwise_cons] at hwf
    rw [windowAux] at hwin
    rw [Bool.or_eq_false_iff] at hwin
    obtain ⟨hwinh, hwin2⟩ := hwin
    rw [Bool.and_eq_false_iff] at hwinh
    by_cases h : w < t0 + max prev o
    · have hnear : w < t0 + min prev o := by
        rcases hwinh with h1 | h1 <;> simp at h1 <;> omega
      have hrw : foldOffAux prev ((t0, o) :: rest) w = prev := by
        simp [foldOffAux, h]
      rw [hrw]
      have hlt : w - prev < t0 := by
        have := min_le_left prev o
        omega
      simp [offAtAux, hlt]
    · have hrw : foldOffAux prev ((t0, o) :: rest) w = foldOffAux o rest w := by
        simp [foldOffAux, h]
      rw [hrw]
      have hge : ¬(w - foldOffAux o rest w < t0) := by
        rcases foldOffAux_cases o rest w with h2 | ⟨p, hp, h3, h4⟩
        · have := le_max_right prev o
          omega
        · have := hwf.1 p hp
          omega
      rw [offAtAux, if_neg hge]
      exact ih o hwf.2 hwin2

/-- C1: for every well formed zone and every naive wall clock timestamp
not falling on a DST transition of the zone, the UTC equivalent produced
by the timestamp transform, converted back into the zone, reproduces the
original wall clock timestamp. -/
theorem C1_timestamp_roundtrip (z : Zone) (w : Int) (hwf : z.WF)
    (h : z.onTransition w = false) :
    z.utcToLocal (z.localToUtc w) = w := by
  have hkey := offAtAux_roundtrip z.trans z.initOff w hwf h
  unfold Zone.utcToLocal Zone.localToUtc Zone.offsetAt Zone.foldOffset at *
  omega

/-- Model of the zone Europe Rome around the year 2023: winter offset one
hour, summer offset two hours, transitions at the end of March and the end
of October 2023. -/
def zoneRome2023 : Zone := ⟨3600, [(1679792400, 7200), (1698541200, 3600)]⟩

/-- Witness for C1 at a concrete summer instant of the Rome zone model. -/
theorem C1_timestamp_roundtrip_witness :
    (zoneRome2023.WF ∧ zoneRome2023.onTransition 1688212800 = false) ∧
      zoneRome2023.utcToLocal (zoneRome2023.localToUtc 1688212800) = 1688212800 :=
  ⟨⟨by unfold Zone.WF zoneRome2023; decide, by decide⟩,
    C1_timestamp_roundtrip zoneRome2023 1688212800
      (by unfold Zone.WF zoneRome2023; decide) (by decide)⟩

/-- C2: with the tool available, an empty standard output or a decode to
the empty result list yields the record with every optional field absent
and no error, while a nonempty standard output whose decode fails yields a
record whose error field describes the decode failure. -/
theorem C2_empty_vs_malformed_output (exif : Option String) (stdout : String)
    (decoded : Except String (List ExifTags))
    (tzAt : (Int × Nat) → (Int × Nat) → Option String)
    (hcmd : optStrTruthy exif = true) :
    (((pyStrip stdout).isEmpty = true ∨ decoded = .ok []) →
      analyze_file_metadata exif stdout decoded tzAt =
        { date := none, gps := none, camera := none, tz_suggested := none,
          error := none })
  ∧ (∀ e : String, (pyStrip stdout).isEmpty = false → decoded = .error e →
      (analyze_file_metadata exif stdout decoded tzAt).error =
        some ("JSON decoding error: " ++ e)) := by
  constructor
  · rintro (h | rfl)
    · simp [analyze_file_metadata, hcmd, h]
    · by_cases h : (pyStrip stdout).isEmpty <;> simp [analyze_file_metadata, hcmd, h]
  · rintro e h rfl
    simp [analyze_file_metadata, hcmd, h]

/-- Witness for C2 at concrete inputs: blank output, and malformed
nonempty output. -/
theorem C2_empty_vs_malformed_output_witness :
    analyze_file_metadata (some "exiftool") "  " (.ok []) (fun _ _ => none) =
      { date := none, gps := none, camera := none, tz_suggested := none,
        error := none }
  ∧ (analyze_file_metadata (some "exiftool") "[" (.error "Expecting value")
      (fun _ _ => none)).error = some "JSON decoding error: Expecting value" :=
  ⟨(C2_empty_vs_malformed_output (some "exiftool") "  " (.ok []) (fun _ _ => none)
      (by decide)).1 (Or.inr rfl),
   (C2_empty_vs_malformed_output (some "exiftool") "[" (.error "Expecting value")
      (fun _ _ => none) (by decide)).2 "Expecting value" (by decide) rfl⟩

/-- C3 counterexample: an existing but empty suggestion together with the
sentinel user value makes the resolver return the sentinel, not the
suggestion, so the claim fails as stated on a present suggestion that is
the empty string. -/
theorem C3_counterexample :
    get_effective_timezone "UTC" (some "") = "UTC"
  ∧ (some "" : Option String).isSome = true
  ∧ ("UTC" : String) ≠ "" := by
  refine ⟨?_, rfl, by decide⟩
  decide

/-- C3 amended: the resolver is pure and total; it returns the suggestion
exactly when the user value is the sentinel and the suggestion is present
and nonempty, and returns the user value unchanged otherwise; both
concrete examples of the claim hold. -/
theorem C3_effective_timezone (u : String) (s : Option String) :
    (u = "UTC" → ∀ t : String, s = some t → t ≠ "" →
      get_effective_timezone u s = t)
  ∧ (u ≠ "UTC" → get_effective_timezone u s = u)
  ∧ (s = none → get_effective_timezone u s = u)
  ∧ get_effective_timezone "UTC" (some "Europe/Rome") = "Europe/Rome"
  ∧ get_effective_timezone "Europe/Rome" (some "Asia/Tokyo") = "Europe/Rome" := by
  refine ⟨?_, ?_, ?_, by decide, by decide⟩
  · rintro rfl t rfl ht
    have hie : t.isEmpty = false := by
      cases hb : t.isEmpty
      · rfl
      · exact absurd (String.isEmpty_iff t |>.mp hb) ht
    simp [get_effective_timezone, DEFAULT_TIMEZONE, optStrTruthy, hie]
  · intro hu
    simp [get_effective_timezone, DEFAULT_TIMEZONE, hu]
  · rintro rfl
    simp [get_effective_timezone, optStrTruthy]

/-- Witness for C3 at a concrete sentinel input with a nonempty
suggestion. -/
theorem C3_effective_timezone_witness :
    get_effective_timezone "UTC" (some "Asia/Tokyo") = "Asia/Tokyo" :=
  (C3_effective_timezone "UTC" (some "Asia/Tokyo")).1 rfl "Asia/Tokyo" rfl
    (by decide)

/-- C4: a missing tool handle or an empty source or target path makes the
sync fail at once, with no external command launched and no analysis
performed. -/
theorem C4_guard_failures (source_path target_path : String)
    (sync_date sync_gps sync_camera : Bool) (tz : String)
    (exif : Option String) (pre : Option AnalysisResult)
    (ar : AnalysisResult) (zones : String → Option Zone)
    (runOk : List String → Bool)
    (h : optStrTruthy exif = false ∨ source_path = "" ∨ target_path = "") :
    perform_sync_operation source_path target_path sync_date sync_gps
      sync_camera tz exif pre ar zones runOk = ⟨false, none, false⟩ := by
  have he : ("".isEmpty) = true := rfl
  rcases h with h | h | h
  · simp [perform_sync_operation, h]
  · by_cases hc : optStrTruthy exif <;>
      simp [perform_sync_operation, hc, h, he]
  · by_cases hc : optStrTruthy exif <;>
      simp [perform_sync_operation, hc, h, he]

/-- Witness for C4 at a concrete input with an empty source path. -/
theorem C4_guard_failures_witness :
    perform_sync_operation "" "b.mp4" true true true "UTC" (some "exiftool")
      none {} (fun _ => none) (fun _ => true) = ⟨false, none, false⟩ :=
  C4_guard_failures "" "b.mp4" true true true "UTC" (some "exiftool") none {}
    (fun _ => none) (fun _ => true) (Or.inr (Or.inl rfl))

/-- C5: date write arguments appear exactly when the date category is
enabled, a creation timestamp is present and truthy, and the timestamp
transform succeeds; when the transform fails the date portion is skipped
while the GPS and camera portions are still assembled and the external
call is still executed. -/
theorem C5_date_failure_skipped (source_path target_path : String)
    (sync_gps sync_camera : Bool) (tz : String) (exif : String)
    (md : AnalysisResult) (ar : AnalysisResult)
    (zones : String → Option Zone) (runOk : List String → Bool)
    (hexif : exif ≠ "") (hs : source_path ≠ "") (ht : target_path ≠ "") :
    (∀ sync_date : Bool, dateArgs zones tz sync_date md.date ≠ [] ↔
      sync_date = true ∧ optStrTruthy md.date = true ∧
        (transformTimestamp zones tz (md.date.getD "")).isSome = true)
  ∧ (transformTimestamp zones tz (md.date.getD "") = none →
      perform_sync_operation source_path target_path true sync_gps sync_camera
          tz (some exif) (some md) ar zones runOk =
        ⟨runOk ([exif] ++ gpsArgs sync_gps source_path
            ++ cameraArgs sync_camera source_path
            ++ ["-overwrite_original", target_path]),
          some ([exif] ++ gpsArgs sync_gps source_path
            ++ cameraArgs sync_camera source_path
            ++ ["-overwrite_original", target_path]), false⟩) := by
  have hie : exif.isEmpty = false := by
    cases hb : exif.isEmpty
    · rfl
    · exact absurd (String.isEmpty_iff exif |>.mp hb) hexif
  have hse : source_path.isEmpty = false := by
    cases hb : source_path.isEmpty
    · rfl
    · exact absurd (String.isEmpty_iff source_path |>.mp hb) hs
  have hte : target_path.isEmpty = false := by
    cases hb : target_path.isEmpty
    · rfl
    · exact absurd (String.isEmpty_iff target_path |>.mp hb) ht
  constructor
  · intro sync_date
    constructor
    · intro hne
      unfold dateArgs at hne
      by_cases h1 : (sync_date && optStrTruthy md.date) = true
      · rw [if_pos h1] at hne
        rcases h2 : transformTimestamp zones tz (md.date.getD "") with _ | p
        · rw [h2] at hne
          simp at hne
        · rw [Bool.and_eq_true] at h1
          exact ⟨h1.1, h1.2, by simp [h2]⟩
      · rw [if_neg h1] at hne
        exact absurd rfl hne
    · rintro ⟨rfl, h2, h3⟩
      unfold dateArgs
      rw [if_pos (by rw [h2]; rfl)]
      rcases h4 : transformTimestamp zones tz (md.date.getD "") with _ | ⟨l2, u2⟩
      · rw [h4] at h3
        simp at h3
      · simp
  · intro hfail
    unfold perform_sync_operation
    rw [show optStrTruthy (some exif) = true by simp [optStrTruthy, hie]]
    simp only [Bool.not_true, Bool.false_eq_true, if_false, hse, hte,
      Bool.or_self, Option.getD_some]
    unfold buildSyncCmd dateArgs
    by_cases h1 : (true && optStrTruthy md.date) = true
    · rw [if_pos h1, hfail]
      rfl
    · rw [if_neg h1]
      rfl

/-- Witness for C5: an unknown zone name makes the transform fail and the
sync proceeds with GPS and camera only. -/
theorem C5_date_failure_skipped_witness :
    perform_sync_operation "a.mp4" "b.mp4" true true true "Nowhere/Nope"
        (some "exiftool") (some { date := some "2023:05:01 10:00:00" }) {}
        (fun _ => none) (fun _ => true) =
      ⟨true, some ["exiftool", "-TagsFromFile", "a.mp4", "-*GPS*",
        "-TagsFromFile", "a.mp4", "-Make", "-Model", "-FNumber", "-ISO",
        "-ExposureTime", "-LensModel", "-LensID",
        "-overwrite_original", "b.mp4"], false⟩ :=
  (C5_date_failure_skipped "a.mp4" "b.mp4" true true "Nowhere/Nope" "exiftool"
      { date := some "2023:05:01 10:00:00" } {} (fun _ => none) (fun _ => true)
      (by decide) (by decide) (by decide)).2 (by decide)

/-- Every date write argument is at least sixteen characters long, the
length of its shortest fixed tag assignment head. -/
lemma dateArgs_mem_long (zones : String → Option Zone) (tz : String)
    (sync_date : Bool) (date : Option String) (x : String)
    (hx : x ∈ dateArgs zones tz sync_date date) : 16 ≤ x.length := by
  unfold dateArgs at hx
  by_cases h1 : (sync_date && optStrTruthy date) = true
  · rw [if_pos h1] at hx
    rcases h2 : transformTimestamp zones tz (date.getD "") with _ | ⟨l2, u2⟩ <;>
      rw [h2] at hx
    · simp at hx
    · simp only [List.mem_cons, List.mem_singleton, List.not_mem_nil,
        or_false] at hx
      rcases hx with rfl | rfl | rfl | rfl | rfl <;>
        rw [String.length_append]
      · have hl : ("-QuickTime:CreationDate=").length = 24 := rfl
        omega
      · have hl : ("-QuickTime:CreateDate=").length = 22 := rfl
        omega
      · have hl : ("-QuickTime:ModifyDate=").length = 22 := rfl
        omega
      · have hl : ("-FileCreateDate=").length = 16 := rfl
        omega
      · have hl : ("-FileModifyDate=").length = 16 := rfl
        omega
  · rw [if_neg h1] at hx
    simp at hx

/-- Every named camera tag is at most thirteen characters long. -/
lemma cameraTag_short (t : String) (ht : t ∈ cameraTagList) : t.length ≤ 13 := by
  unfold cameraTagList at ht
  simp only [List.mem_cons, List.mem_singleton, List.not_mem_nil,
    or_false] at ht
  rcases ht with rfl | rfl | rfl | rfl | rfl | rfl | rfl <;> decide

/-- No camera tag occurs among the date write arguments. -/
lemma count_dateArgs_cameraTag (zones : String → Option Zone) (tz : String)
    (sync_date : Bool) (date : Option String) (t : String)
    (ht : t ∈ cameraTagList) :
    (dateArgs zones tz sync_date date).count t = 0 := by
  rw [List.count_eq_zero]
  intro hmem
  have h1 := dateArgs_mem_long zones tz sync_date date t hmem
  have h2 := cameraTag_short t ht
  omega

/-- No camera tag occurs among the GPS copy arguments when the source path
is not itself such a tag. -/
lemma count_gpsArgs_cameraTag (sync_gps : Bool) (sp t : String)
    (hsp : sp ≠ t) (ht : t ∈ cameraTagList) :
    (gpsArgs sync_gps sp).count t = 0 := by
  rw [List.count_eq_zero]
  have h1 : t ≠ "-TagsFromFile" := by
    intro h
    rw [h] at ht
    revert ht
    decide
  have h2 : t ≠ "-*GPS*" := by
    intro h
    rw [h] at ht
    revert ht
    decide
  cases sync_gps <;> simp [gpsArgs]
  exact ⟨h1, fun h => hsp h.symm, h2⟩

/-- Each named camera tag occurs exactly once among the camera copy
arguments. -/
lemma count_cameraArgs_one (sp t : String) (hsp : sp ≠ t)
    (ht : t ∈ cameraTagList) : (cameraArgs true sp).count t = 1 := by
  unfold cameraTagList at ht
  simp only [List.mem_cons, List.mem_singleton, List.not_mem_nil,
    or_false] at ht
  rcases ht with rfl | rfl | rfl | rfl | rfl | rfl | rfl <;>
    simp [cameraArgs, cameraTagList, List.count_cons, hsp.symm]

/-- C6: with the camera category enabled, the assembled command contains
each of the seven named camera tags exactly once, provided none of the
surrounding path strings collides with a tag name; the tags are emitted as
the copy list that follows the tags from file argument. -/
theorem C6_camera_exact_tags (exif source_path target_path : String)
    (sync_date sync_gps : Bool) (tz : String) (zones : String → Option Zone)
    (md : AnalysisResult) (hexif : exif ∉ cameraTagList)
    (hs : source_path ∉ cameraTagList) (ht : target_path ∉ cameraTagList) :
    cameraTagList.length = 7
  ∧ cameraArgs true source_path = ["-TagsFromFile", source_path] ++ cameraTagList
  ∧ ∀ t ∈ cameraTagList,
      (buildSyncCmd exif source_path target_path sync_date sync_gps true tz
        zones md).count t = 1 := by
  refine ⟨rfl, rfl, fun t htag => ?_⟩
  have hexifne : exif ≠ t := fun h => hexif (h ▸ htag)
  have hspne : source_path ≠ t := fun h => hs (h ▸ htag)
  have htgne : target_path ≠ t := fun h => ht (h ▸ htag)
  have h1 : t ≠ "-overwrite_original" := by
    intro h
    rw [h] at htag
    revert htag
    decide
  unfold buildSyncCmd
  rw [List.count_append, List.count_append, List.count_append,
    List.count_append]
  rw [count_dateArgs_cameraTag zones tz sync_date md.date t htag]
  rw [count_gpsArgs_cameraTag sync_gps source_path t hspne htag]
  rw [count_cameraArgs_one source_path t hspne htag]
  have e1 : List.count t [exif] = 0 := by
    rw [List.count_eq_zero]
    simp only [List.mem_singleton]
    exact fun h => hexifne h.symm
  have e2 : List.count t ["-overwrite_original", target_path] = 0 := by
    rw [List.count_eq_zero]
    simp only [List.mem_cons, List.mem_singleton, List.not_mem_nil, or_false]
    rintro (h | h)
    · exact h1 h
    · exact htgne h.symm
  rw [e1, e2]

/-- Witness for C6 at concrete paths. -/
theorem C6_camera_exact_tags_witness :
    (buildSyncCmd "exiftool" "a.mp4" "b.mp4" false false true "UTC"
        (fun _ => none) {}).count "-Make" = 1
  ∧ cameraTagList.length = 7 :=
  ⟨(C6_camera_exact_tags "exiftool" "a.mp4" "b.mp4" false false "UTC"
      (fun _ => none) {} (by decide) (by decide) (by decide)).2.2 "-Make"
      (by decide),
   (C6_camera_exact_tags "exiftool" "a.mp4" "b.mp4" false false "UTC"
      (fun _ => none) {} (by decide) (by decide) (by decide)).1⟩

/-- C7: with only the GPS category enabled, the assembled command is the
single GPS wildcard copy with the in place overwrite tail, with no date
write arguments, and that exact command is the one executed. -/
theorem C7_gps_only_command (exif source_path target_path : String)
    (tz : String) (zones : String → Option Zone) (md : AnalysisResult)
    (ar : AnalysisResult) (runOk : List String → Bool)
    (hexif : exif ≠ "") (hs : source_path ≠ "") (ht : target_path ≠ "") :
    buildSyncCmd exif source_path target_path false true false tz zones md =
      [exif, "-TagsFromFile", source_path, "-*GPS*",
        "-overwrite_original", target_path]
  ∧ perform_sync_operation source_path target_path false true false tz
      (some exif) (some md) ar zones runOk =
    ⟨runOk [exif, "-TagsFromFile", source_path, "-*GPS*",
        "-overwrite_original", target_path],
      some [exif, "-TagsFromFile", source_path, "-*GPS*",
        "-overwrite_original", target_path], false⟩ := by
  have hie : exif.isEmpty = false := by
    cases hb : exif.isEmpty
    · rfl
    · exact absurd (String.isEmpty_iff exif |>.mp hb) hexif
  have hse : source_path.isEmpty = false := by
    cases hb : source_path.isEmpty
    · rfl
    · exact absurd (String.isEmpty_iff source_path |>.mp hb) hs
  have hte : target_path.isEmpty = false := by
    cases hb : target_path.isEmpty
    · rfl
    · exact absurd (String.isEmpty_iff target_path |>.mp hb) ht
  have hcmd : buildSyncCmd exif source_path target_path false true false tz
      zones md = [exif, "-TagsFromFile", source_path, "-*GPS*",
        "-overwrite_original", target_path] := by
    unfold buildSyncCmd dateArgs gpsArgs cameraArgs
    rfl
  refine ⟨hcmd, ?_⟩
  unfold perform_sync_operation
  rw [show optStrTruthy (some exif) = true by simp [optStrTruthy, hie]]
  simp only [Bool.not_true, Bool.false_eq_true, if_false, hse, hte,
    Bool.or_self, Option.getD_some]
  rw [hcmd]

/-- Witness for C7 at concrete paths. -/
theorem C7_gps_only_command_witness :
    perform_sync_operation "a.mp4" "b.mp4" false true false "UTC"
        (some "exiftool") (some {}) {} (fun _ => none) (fun _ => true) =
      ⟨true, some ["exiftool", "-TagsFromFile", "a.mp4", "-*GPS*",
        "-overwrite_original", "b.mp4"], false⟩ :=
  (C7_gps_only_command "exiftool" "a.mp4" "b.mp4" "UTC" (fun _ => none) {} {}
    (fun _ => true) (by decide) (by decide) (by decide)).2

/-- Deduplication yields a sublist of its input. -/
lemma dedupFirstAux_sublist (seen l : List String) :
    List.Sublist (dedupFirstAux seen l) l := by
  induction l generalizing seen with
  | nil => simp [dedupFirstAux]
  | cons t r ih =>
    by_cases h : t ∈ seen
    · rw [dedupFirstAux, if_pos h]
      exact (ih seen).cons t
    · rw [dedupFirstAux, if_neg h]
      exact (ih (t :: seen)).cons₂ t

/-- Membership after deduplication: present in the input and not among the
already seen tokens. -/
lemma mem_dedupFirstAux (seen l : List String) (a : String) :
    a ∈ dedupFirstAux seen l ↔ a ∈ l ∧ a ∉ seen := by
  induction l generalizing seen with
  | nil => simp [dedupFirstAux]
  | cons t r ih =>
    by_cases h : t ∈ seen
    · rw [dedupFirstAux, if_pos h, ih seen]
      constructor
      · rintro ⟨h1, h2⟩
        exact ⟨List.mem_cons_of_mem _ h1, h2⟩
      · rintro ⟨h1, h2⟩
        rcases List.mem_cons.mp h1 with rfl | h1
        · exact absurd h h2
        · exact ⟨h1, h2⟩
    · rw [dedupFirstAux, if_neg h]
      by_cases hat : a = t
      · subst hat
        simp [List.mem_cons, h]
      · simp only [List.mem_cons, hat, false_or, ih (t :: seen)]

/-- Deduplication produces a list without repeated tokens. -/
lemma nodup_dedupFirstAux (seen l : List String) :
    (dedupFirstAux seen l).Nodup := by
  induction l generalizing seen with
  | nil => simp [dedupFirstAux]
  | cons t r ih =>
    by_cases h : t ∈ seen
    · rw [dedupFirstAux, if_pos h]
      exact ih seen
    · rw [dedupFirstAux, if_neg h]
      refine List.nodup_cons.mpr ⟨fun hmem => ?_, ih (t :: seen)⟩
      exact ((mem_dedupFirstAux (t :: seen) r t).mp hmem).2
        (List.mem_cons_self t seen)

/-- Tool output of the worked example of the specification. -/
def exampleTags : ExifTags :=
  { CreationDate := some (.jstr "2023:05:01 10:00:00+02:00"),
    GPSLatitude := some (.jfloat 419 1), GPSLongitude := some (.jfloat 125 1),
    Make := some (.jstr "Canon"), Model := some (.jstr "Canon EOS R5"),
    FNumber := some (.jfloat 28 1), ISO := some (.jint 400) }

/-- TimezoneFinder oracle of the worked example, mapping the example
coordinates to the Rome zone name. -/
def exampleTzFinder : (Int × Nat) → (Int × Nat) → Option String :=
  fun lo la => if lo = (125, 1) ∧ la = (419, 1) then some "Europe/Rome" else none

/-- Expected extraction record of the worked example. -/
def exampleResult : AnalysisResult :=
  { date := some "2023:05:01 10:00:00+02:00",
    gps := some ((419, 1), (125, 1)),
    camera := some "Canon EOS R5 | f/2.8 | ISO 400",
    tz_suggested := some "Europe/Rome",
    error := none }

/-- C8: camera summary construction.  The worked example extraction yields
the expected record; repeated make and model tokens are deduplicated
keeping first occurrences (a general law of the deduplication step plus
concrete instances); an empty make and model pair contributes no part,
exactly as absent tags; and the summary is the populated parts joined with
the bar separator, absent when no part exists. -/
theorem C8_camera_summary_construction :
    analyze_file_metadata (some "exiftool") "json" (.ok [exampleTags])
        exampleTzFinder = exampleResult
  ∧ cameraSummary (some (.jstr "Canon")) (some (.jstr "Canon EOS R5"))
      none none = some "Canon EOS R5"
  ∧ dedupFirst ["b", "a", "b"] = ["b", "a"]
  ∧ (∀ l : List String, (dedupFirst l).Nodup ∧ List.Sublist (dedupFirst l) l
      ∧ ∀ a : String, a ∈ dedupFirst l ↔ a ∈ l)
  ∧ (∀ fv iv : Option JVal,
      cameraSummary (some (.jstr "")) (some (.jstr "")) fv iv =
        cameraSummary none none fv iv)
  ∧ (∀ mk mo fv iv : Option JVal, cameraSummary mk mo fv iv =
      if (cameraParts mk mo fv iv).isEmpty then none
      else some (String.intercalate " | " (cameraParts mk mo fv iv))) := by
  refine ⟨rfl, rfl, rfl, fun l => ⟨nodup_dedupFirstAux [] l,
    dedupFirstAux_sublist [] l, fun a => ?_⟩, fun fv iv => rfl,
    fun mk mo fv iv => rfl⟩
  rw [dedupFirst, mem_dedupFirstAux]
  simp

/-- Witness for C8: the deduplication instance of the claim. -/
theorem C8_camera_summary_construction_witness :
    cameraSummary (some (.jstr "Canon")) (some (.jstr "Canon EOS R5"))
      none none = some "Canon EOS R5" :=
  C8_camera_summary_construction.2.1

/-- C9: a present pre-analyzed record suppresses re-analysis, and its
error field is never inspected: the executed command is built from the
record and the whole outcome is unchanged under any error value. -/
theorem C9_pre_analyzed_skips_analysis (source_path target_path : String)
    (sync_date sync_gps sync_camera : Bool) (tz : String) (exif : String)
    (md ar : AnalysisResult) (zones : String → Option Zone)
    (runOk : List String → Bool)
    (hexif : exif ≠ "") (hs : source_path ≠ "") (ht : target_path ≠ "") :
    (perform_sync_operation source_path target_path sync_date sync_gps
        sync_camera tz (some exif) (some md) ar zones runOk).analyzedSource
      = false
  ∧ (perform_sync_operation source_path target_path sync_date sync_gps
        sync_camera tz (some exif) (some md) ar zones runOk).executed
      = some (buildSyncCmd exif source_path target_path sync_date sync_gps
          sync_camera tz zones md)
  ∧ ∀ e : Option String,
      perform_sync_operation source_path target_path sync_date sync_gps
          sync_camera tz (some exif) (some { md with error := e }) ar zones
          runOk
        = perform_sync_operation source_path target_path sync_date sync_gps
            sync_camera tz (some exif) (some md) ar zones runOk := by
  have hie : exif.isEmpty = false := by
    cases hb : exif.isEmpty
    · rfl
    · exact absurd (String.isEmpty_iff exif |>.mp hb) hexif
  have hse : source_path.isEmpty = false := by
    cases hb : source_path.isEmpty
    · rfl
    · exact absurd (String.isEmpty_iff source_path |>.mp hb) hs
  have hte : target_path.isEmpty = false := by
    cases hb : target_path.isEmpty
    · rfl
    · exact absurd (String.isEmpty_iff target_path |>.mp hb) ht
  have hrun : perform_sync_operation source_path target_path sync_date
      sync_gps sync_camera tz (some exif) (some md) ar zones runOk =
      ⟨runOk (buildSyncCmd exif source_path target_path sync_date sync_gps
          sync_camera tz zones md),
        some (buildSyncCmd exif source_path target_path sync_date sync_gps
          sync_camera tz zones md), false⟩ := by
    unfold perform_sync_operation
    rw [show optStrTruthy (some exif) = true by simp [optStrTruthy, hie]]
    simp only [Bool.not_true, Bool.false_eq_true, if_false, hse, hte,
      Bool.or_self, Option.getD_some]
  exact ⟨by rw [hrun], by rw [hrun], fun e => rfl⟩

/-- Witness for C9 at concrete inputs with an error bearing record. -/
theorem C9_pre_analyzed_skips_analysis_witness :
    perform_sync_operation "a.mp4" "b.mp4" false true false "UTC"
        (some "exiftool") (some { error := some "boom" }) {} (fun _ => none)
        (fun _ => true)
      = perform_sync_operation "a.mp4" "b.mp4" false true false "UTC"
          (some "exiftool") (some {}) {} (fun _ => none) (fun _ => true) :=
  (C9_pre_analyzed_skips_analysis "a.mp4" "b.mp4" false true false "UTC"
    "exiftool" {} {} (fun _ => none) (fun _ => true) (by decide) (by decide)
    (by decide)).2.2 (some "boom")

/-- C10: presence of the f-number and ISO parts follows truthiness, not
key presence: a zero or empty string value yields the same extraction
record as an absent tag. -/
theorem C10_falsy_fnum_iso (ec : Option String) (so : String)
    (tzAt : (Int × Nat) → (Int × Nat) → Option String) (m : ExifTags) :
    analyze_file_metadata ec so (.ok [{ m with FNumber := some (.jint 0) }]) tzAt
      = analyze_file_metadata ec so (.ok [{ m with FNumber := none }]) tzAt
  ∧ analyze_file_metadata ec so (.ok [{ m with FNumber := some (.jstr "") }]) tzAt
      = analyze_file_metadata ec so (.ok [{ m with FNumber := none }]) tzAt
  ∧ analyze_file_metadata ec so (.ok [{ m with ISO := some (.jint 0) }]) tzAt
      = analyze_file_metadata ec so (.ok [{ m with ISO := none }]) tzAt
  ∧ analyze_file_metadata ec so (.ok [{ m with ISO := some (.jstr "") }]) tzAt
      = analyze_file_metadata ec so (.ok [{ m with ISO := none }]) tzAt :=
  ⟨rfl, rfl, rfl, rfl⟩
